import Mathlib

/-!
Verification of the External Control Session Manager of the flight-tracker
repository (class `ExternalControlManager`, `src/docs/README.md`).

Shallow embedding conventions:
* WebSocket handles are modelled as natural numbers; the runtime predicate
  `ws.readyState === WebSocket.OPEN` is an explicit parameter `isOpen : Nat → Bool`.
* `Set<WebSocket>` becomes `Finset Nat`; the in-memory `Map<string, Session>`
  becomes a function `String → Option Session`.
* Timestamps (`Date`) are integers (milliseconds); `a.getTime() - b.getTime()`
  is integer subtraction.
* The optional numeric field `currentView.range?` is a `Nat`, with `0` playing
  the role of a JavaScript falsy value (every read of `range` in the source
  goes through `range || default`, and `undefined` and `0` behave identically
  in all of the manager's reads, so the collapse is faithful).
* Messages written to sockets are collected in a `Multiset (Nat × OutMessage)`
  (socket, payload); `JSON.stringify` is dropped since payloads are compared
  structurally.
* The `wsToSession` reverse map is bookkeeping read only by `unregisterClient`,
  which no verified property touches; it is elided from the session-level
  handler returns.
-/

/-- Display state of a session (`Session.currentView` in the source). -/
structure CurrentView where
  mode : String
  range : Nat
  zonesEnabled : Bool
  selectedAircraft : Option String
deriving DecidableEq, Repr

/-- One external-control session (interface `Session` in the source). -/
structure Session where
  id : String
  viewers : Finset Nat
  controllers : Finset Nat
  currentView : CurrentView
  createdAt : Int
  lastActivity : Int
deriving DecidableEq

/-- A viewer's self-reported view (the `currentView?` field of a
`REGISTER_VIEWER` message: `{ mode?: string; range?: number }`). -/
structure ReportedView where
  mode : Option String
  range : Option Nat
deriving DecidableEq, Repr

/-- An inbound control message (interface `ControlMessage` in the source);
the `value` field is never read by the manager and is elided. -/
structure ControlMessage where
  type : String
  sessionId : String
  direction : Option String
  currentView : Option ReportedView
deriving DecidableEq, Repr

/-- A server-to-client payload: either a `STATE_UPDATE` (mode, range,
zonesEnabled) or a `SELECT_AIRCRAFT` relay carrying a direction. -/
inductive OutMessage where
  | stateUpdate (sessionId : String) (mode : String) (range : Nat) (zonesEnabled : Bool)
  | selectAircraft (sessionId : String) (direction : String)
deriving DecidableEq, Repr

/-- The empty string, used as the junk value of an out-of-range JS index
(`undefined` in the source; unreachable in the manager). -/
def emptyStr : String := ""

/-- The literal direction `forward`. -/
def forwardStr : String := "forward"

/-- The literal direction `backward`. -/
def backwardStr : String := "backward"

/-- The radar mode sentinel. -/
def radarStr : String := "radar"

/-- The mode string `zone_<id>` of the zone with the given id. -/
def zoneModeStr (i : Nat) : String := "zone_" ++ toString i

/-- JavaScript `Array.prototype.indexOf` on a string list: first index of the
element, `-1` when absent. -/
def jsIndexOfStr (l : List String) (x : String) : Int :=
  if x ∈ l then ((List.indexOf x l : Nat) : Int) else -1

/-- JavaScript `Array.prototype.indexOf` on a numeric list. -/
def jsIndexOfNat (l : List Nat) (x : Nat) : Int :=
  if x ∈ l then ((List.indexOf x l : Nat) : Int) else -1

/-- JavaScript indexing `l[i]` on a string list (junk `emptyStr` stands for
`undefined` out of range; the manager never indexes out of range). -/
def jsGetStr (l : List String) (i : Int) : String :=
  if 0 ≤ i then l.getD i.toNat emptyStr else emptyStr

/-- JavaScript indexing `l[i]` on a numeric list. -/
def jsGetNat (l : List Nat) (i : Int) : Nat :=
  if 0 ≤ i then l.getD i.toNat 0 else 0

/-- JavaScript `x || d` for an optional string (`message.direction || "forward"`):
`undefined` and the empty string are falsy. -/
def jsOrStr (o : Option String) (d : String) : String :=
  match o with
  | none => d
  | some s => if s = "" then d else s

/-- The new-index computation shared by the MODE and RANGE handlers:
`forward`: `(i + 1) % len`; anything else: `i - 1`, wrapped to `len - 1`
when negative. -/
def stepIndex (direction : String) (i : Int) (len : Nat) : Int :=
  if direction == "forward" then (i + 1) % (len : Int)
  else
    let n := i - 1
    if n < 0 then (len : Int) - 1 else n

/-- Mode cycle built fresh from the zone directory on each MODE message:
`["radar", ...areas.map(a => zone_<a.id>)]`. -/
def modesList (areas : List Nat) : List String :=
  "radar" :: areas.map (fun a => "zone_" ++ toString a)

/-- Wire serialization of a session's view (the `state` field of a
`STATE_UPDATE`): `range: currentView.range || 10`,
`zonesEnabled: currentView.zonesEnabled || false`. -/
def stateUpdateMsg (s : Session) : OutMessage :=
  OutMessage.stateUpdate s.id s.currentView.mode
    (if s.currentView.range = 0 then 10 else s.currentView.range)
    s.currentView.zonesEnabled

/-- A `set.forEach(ws => if open then ws.send(m))` loop: one copy of `m` per
open socket of the set. -/
def sendToSet (isOpen : Nat → Bool) (sockets : Finset Nat) (m : OutMessage) :
    Multiset (Nat × OutMessage) :=
  (sockets.filter (fun w => isOpen w = true)).val.map (fun w => (w, m))

/-- `sendStateToClient`: push the current state to one socket when it is open. -/
def sendStateToClient (isOpen : Nat → Bool) (ws : Nat) (s : Session) :
    Multiset (Nat × OutMessage) :=
  if isOpen ws then {(ws, stateUpdateMsg s)} else 0

/-- `broadcastStateUpdate`: send the serialized state to all open viewers and
all open controllers of the session. -/
def broadcastStateUpdate (isOpen : Nat → Bool) (s : Session) :
    Multiset (Nat × OutMessage) :=
  sendToSet isOpen s.viewers (stateUpdateMsg s) +
    sendToSet isOpen s.controllers (stateUpdateMsg s)

/-- `broadcastToControllers`: send the serialized state to the session's open
controllers only. -/
def broadcastToControllers (isOpen : Nat → Bool) (s : Session) :
    Multiset (Nat × OutMessage) :=
  sendToSet isOpen s.controllers (stateUpdateMsg s)

/-- `handleModeChange`: rebuild the mode cycle from the zone directory, step
the index in the given direction, and re-snap range only when the transition
crosses between radar and a zone. -/
def handleModeChange (areas : List Nat) (isOpen : Nat → Bool) (s : Session)
    (direction : String) : Session × Multiset (Nat × OutMessage) :=
  let modes := modesList areas
  let currentIndex := jsIndexOfStr modes s.currentView.mode
  let newIndex := stepIndex direction currentIndex modes.length
  let newMode := jsGetStr modes newIndex
  let oldMode := s.currentView.mode
  let wasRadar := oldMode == "radar"
  let isRadar := newMode == "radar"
  let newRange :=
    if wasRadar && !isRadar then 1
    else if !wasRadar && isRadar then 10
    else s.currentView.range
  let s1 := { s with currentView :=
    { s.currentView with mode := newMode, range := newRange } }
  (s1, broadcastStateUpdate isOpen s1)

/-- The radar range domain (miles). -/
def radarRanges : List Nat := [5, 10, 15, 25, 50, 100]

/-- The zone range domain (hours). -/
def zoneRanges : List Nat := [1, 4, 12, 24]

/-- `handleRangeChange`: pick the domain from the current mode, substitute the
domain default for a falsy range (`range || (isRadar ? 10 : 1)`), look the
value up with JS `indexOf` (`-1` when stale), step, and store the new entry. -/
def handleRangeChange (isOpen : Nat → Bool) (s : Session) (direction : String) :
    Session × Multiset (Nat × OutMessage) :=
  let isRadar := s.currentView.mode == "radar"
  let ranges := if isRadar then radarRanges else zoneRanges
  let currentRange :=
    if s.currentView.range = 0 then (if isRadar then 10 else 1)
    else s.currentView.range
  let currentIndex := jsIndexOfNat ranges currentRange
  let newIndex := stepIndex direction currentIndex ranges.length
  let s1 := { s with currentView :=
    { s.currentView with range := jsGetNat ranges newIndex } }
  (s1, broadcastStateUpdate isOpen s1)

/-- `handleZonesToggle`: flip `zonesEnabled` and broadcast, only in radar mode. -/
def handleZonesToggle (isOpen : Nat → Bool) (s : Session) :
    Session × Multiset (Nat × OutMessage) :=
  if s.currentView.mode == "radar" then
    let s1 := { s with currentView :=
      { s.currentView with zonesEnabled := !s.currentView.zonesEnabled } }
    (s1, broadcastStateUpdate isOpen s1)
  else (s, 0)

/-- `handleSelectChange`: in radar mode, relay a `SELECT_AIRCRAFT` carrying the
direction to the session's open viewers; no session state is mutated.
Outside radar mode, do nothing. -/
def handleSelectChange (isOpen : Nat → Bool) (s : Session) (direction : String) :
    Session × Multiset (Nat × OutMessage) :=
  if s.currentView.mode == "radar" then
    (s, sendToSet isOpen s.viewers (OutMessage.selectAircraft s.id direction))
  else (s, 0)

/-- The truthy-guarded mode overwrite inside `registerViewer`
(`if (currentView.mode && currentView.mode !== session.currentView.mode)`). -/
def applyReportedMode (s : Session) (rv : ReportedView) : Session × Bool :=
  match rv.mode with
  | some m =>
    if m ≠ "" ∧ m ≠ s.currentView.mode then
      ({ s with currentView := { s.currentView with mode := m } }, true)
    else (s, false)
  | none => (s, false)

/-- The truthy-guarded range overwrite inside `registerViewer`
(`if (currentView.range && currentView.range !== session.currentView.range)`). -/
def applyReportedRange (s : Session) (rv : ReportedView) : Session × Bool :=
  match rv.range with
  | some r =>
    if r ≠ 0 ∧ r ≠ s.currentView.range then
      ({ s with currentView := { s.currentView with range := r } }, true)
    else (s, false)
  | none => (s, false)

/-- `registerViewer`: add the socket to the viewers set; if a reported view was
supplied, overwrite each truthy, differing field and, when anything changed,
broadcast to controllers only; finally push the (possibly updated) state to
the new viewer. -/
def registerViewer (isOpen : Nat → Bool) (s0 : Session) (ws : Nat)
    (reported : Option ReportedView) : Session × Multiset (Nat × OutMessage) :=
  let s1 := { s0 with viewers := insert ws s0.viewers }
  match reported with
  | none => (s1, sendStateToClient isOpen ws s1)
  | some rv =>
    let p1 := applyReportedMode s1 rv
    let p2 := applyReportedRange p1.1 rv
    let s2 := p2.1
    let needsUpdate := p1.2 || p2.2
    let b := if needsUpdate then broadcastToControllers isOpen s2 else 0
    (s2, b + sendStateToClient isOpen ws s2)

/-- `registerController`: add the socket to the controllers set and push the
current state to it. -/
def registerController (isOpen : Nat → Bool) (s0 : Session) (ws : Nat) :
    Session × Multiset (Nat × OutMessage) :=
  let s1 := { s0 with controllers := insert ws s0.controllers }
  (s1, sendStateToClient isOpen ws s1)

/-- The fresh session built by `createSession` for a previously unknown id:
radar mode, default 10-mile range, overlays off, nothing selected. -/
def newSession (sid : String) (now : Int) : Session :=
  { id := sid
    viewers := ∅
    controllers := ∅
    currentView :=
      { mode := "radar", range := 10, zonesEnabled := false,
        selectedAircraft := none }
    createdAt := now
    lastActivity := now }

/-- Point update of the session table at one key. -/
def updateSession (mgr : String → Option Session) (sid : String) (s : Session) :
    String → Option Session :=
  fun k => if k = sid then some s else mgr k

/-- `handleControlMessage`: look the session up (`getSession` stamps
`lastActivity`), defaulting `direction` with `message.direction || "forward"`,
and dispatch on the message type; an unknown session id drops the message. -/
def handleControlMessage (areas : List Nat) (isOpen : Nat → Bool) (now : Int)
    (mgr : String → Option Session) (ws : Nat) (msg : ControlMessage) :
    (String → Option Session) × Multiset (Nat × OutMessage) :=
  match mgr msg.sessionId with
  | none => (mgr, 0)
  | some s0 =>
    let s := { s0 with lastActivity := now }
    let dir := jsOrStr msg.direction forwardStr
    if msg.type == "REGISTER_VIEWER" then
      let r := registerViewer isOpen s ws msg.currentView
      (updateSession mgr msg.sessionId r.1, r.2)
    else if msg.type == "REGISTER_CONTROLLER" then
      let r := registerController isOpen s ws
      (updateSession mgr msg.sessionId r.1, r.2)
    else if msg.type == "STATE_REQUEST" then
      (updateSession mgr msg.sessionId s, sendStateToClient isOpen ws s)
    else if msg.type == "MODE" then
      let r := handleModeChange areas isOpen s dir
      (updateSession mgr msg.sessionId r.1, r.2)
    else if msg.type == "RANGE" then
      let r := handleRangeChange isOpen s dir
      (updateSession mgr msg.sessionId r.1, r.2)
    else if msg.type == "ZONES" then
      let r := handleZonesToggle isOpen s
      (updateSession mgr msg.sessionId r.1, r.2)
    else if msg.type == "SELECT" then
      let r := handleSelectChange isOpen s dir
      (updateSession mgr msg.sessionId r.1, r.2)
    else
      (updateSession mgr msg.sessionId s, 0)

/-- The 30-minute inactivity threshold in milliseconds (`maxInactivity`). -/
def maxInactivity : Int := 30 * 60 * 1000

/-- `cleanupInactiveSessions`: delete every session with no attached viewers,
no attached controllers, and `now - lastActivity` strictly above the
threshold. -/
def cleanupInactiveSessions (now : Int) (mgr : String → Option Session) :
    String → Option Session :=
  fun sid =>
    match mgr sid with
    | none => none
    | some s =>
      if s.viewers.card = 0 ∧ s.controllers.card = 0 ∧
          now - s.lastActivity > maxInactivity then none
      else some s

/-- One draw of `Math.floor(1000 + Math.random() * 9000)`: the raw random
stream is reduced to a residue below 9000 and shifted into 1000..9999.
Session-id strings are identified with their numeric values (the decimal
strings produced by `.toString()` are in bijection with 1000..9999). -/
def sessionIdSample (stream : Nat → Nat) (n : Nat) : Nat :=
  1000 + stream n % 9000

/-- `generateSessionId`: rejection-sample until the drawn id is not a key of
the session table; the do-while loop is the first sample outside `keys`,
which exists by hypothesis `h`. -/
def generateSessionId (keys : Finset Nat) (stream : Nat → Nat)
    (h : ∃ n, sessionIdSample stream n ∉ keys) : Nat :=
  sessionIdSample stream (Nat.find h)

/-- A socket-openness environment in which every socket is open. -/
def allOpen : Nat → Bool := fun _ => true

/-- The empty session table. -/
def emptyMgr : String → Option Session := fun _ => none

/-- The session id of the worked scenarios. -/
def sid9999 : String := "9999"

/-- A table holding exactly one freshly created session `"9999"`. -/
def mgr9999 : String → Option Session :=
  fun k => if k = sid9999 then some (newSession sid9999 0) else none

/-- A `REGISTER_CONTROLLER` message for session `"9999"`. -/
def msgRegController : ControlMessage :=
  { type := "REGISTER_CONTROLLER", sessionId := sid9999, direction := none,
    currentView := none }

/-- A `MODE forward` message for session `"9999"`. -/
def msgModeFwd : ControlMessage :=
  { type := "MODE", sessionId := sid9999, direction := some forwardStr,
    currentView := none }

/-- A `MODE backward` message for session `"9999"`. -/
def msgModeBwd : ControlMessage :=
  { type := "MODE", sessionId := sid9999, direction := some backwardStr,
    currentView := none }

/-- A `RANGE` message for session `"9999"` whose direction is the empty string. -/
def msgRangeEmpty : ControlMessage :=
  { type := "RANGE", sessionId := sid9999, direction := some emptyStr,
    currentView := none }

/-- A `RANGE backward` message for session `"9999"`. -/
def msgRangeBwd : ControlMessage :=
  { type := "RANGE", sessionId := sid9999, direction := some backwardStr,
    currentView := none }

/-- Projection of a looked-up session to its (mode, range) pair. -/
def viewMR (o : Option Session) : Option (String × Nat) :=
  o.map (fun s => (s.currentView.mode, s.currentView.range))

/-- Scenario (claim C1): the table after `REGISTER_CONTROLLER` on `"9999"`
with socket 7, zone directory `[1, 2]`. -/
def c1Table1 : String → Option Session :=
  (handleControlMessage [1, 2] allOpen 0 mgr9999 7 msgRegController).1

/-- Scenario: after the first `MODE forward`. -/
def c1Table2 : String → Option Session :=
  (handleControlMessage [1, 2] allOpen 0 c1Table1 7 msgModeFwd).1

/-- Scenario: after the second `MODE forward`. -/
def c1Table3 : String → Option Session :=
  (handleControlMessage [1, 2] allOpen 0 c1Table2 7 msgModeFwd).1

/-- Scenario: after the third `MODE forward`. -/
def c1Table4 : String → Option Session :=
  (handleControlMessage [1, 2] allOpen 0 c1Table3 7 msgModeFwd).1

/-- Scenario: after the final `MODE backward`. -/
def c1Table5 : String → Option Session :=
  (handleControlMessage [1, 2] allOpen 0 c1Table4 7 msgModeBwd).1

/-- The identity sample stream, used to exercise the id generator. -/
def idStream : Nat → Nat := fun n => n

/-- Membership in a `forEach`-style send: a pair is delivered exactly when the
socket is an open member of the target set and the payload is the broadcast
message. -/
theorem mem_sendToSet {isOpen : Nat → Bool} {sockets : Finset Nat}
    {m : OutMessage} {w : Nat} {p : OutMessage} :
    (w, p) ∈ sendToSet isOpen sockets m ↔ w ∈ sockets ∧ isOpen w = true ∧ p = m := by
  unfold sendToSet
  constructor
  · intro h
    obtain ⟨a, ha, heq⟩ := Multiset.mem_map.1 h
    obtain ⟨rfl, rfl⟩ := Prod.mk.injEq .. ▸ heq
    have := Finset.mem_filter.1 ha
    exact ⟨this.1, this.2, rfl⟩
  · intro ⟨h1, h2, h3⟩
    exact Multiset.mem_map.2 ⟨w, Finset.mem_filter.2 ⟨h1, h2⟩, by rw [h3]⟩

/-- C6: a control message naming a session id with no entry in the table is
silently dropped: the table is returned unchanged and no socket is sent
anything. -/
theorem unknown_session_silently_dropped (areas : List Nat) (isOpen : Nat → Bool)
    (now : Int) (mgr : String → Option Session) (ws : Nat) (msg : ControlMessage)
    (h : mgr msg.sessionId = none) :
    handleControlMessage areas isOpen now mgr ws msg = (mgr, 0) := by
  unfold handleControlMessage
  rw [h]

/-- Witness for C6: a MODE message against the empty table changes nothing and
emits nothing. -/
theorem unknown_session_silently_dropped_witness :
    handleControlMessage [1, 2] allOpen 0 emptyMgr 7 msgModeFwd = (emptyMgr, 0) :=
  unknown_session_silently_dropped [1, 2] allOpen 0 emptyMgr 7 msgModeFwd rfl

/-- C7: the eviction sweep deletes exactly the sessions with no attached
viewers, no attached controllers, and idle time strictly above the 30-minute
threshold; a session with at least one attached socket survives every sweep
regardless of its age. -/
theorem cleanup_evicts_exactly_idle_empty (now : Int)
    (mgr : String → Option Session) (sid : String) :
    (∀ s, mgr sid = some s →
      (cleanupInactiveSessions now mgr sid = none ↔
        s.viewers = ∅ ∧ s.controllers = ∅ ∧ now - s.lastActivity > maxInactivity) ∧
      (s.viewers ≠ ∅ ∨ s.controllers ≠ ∅ →
        cleanupInactiveSessions now mgr sid = some s)) ∧
    (mgr sid = none → cleanupInactiveSessions now mgr sid = none) := by
  constructor
  · intro s hs
    unfold cleanupInactiveSessions
    rw [hs]
    dsimp only
    constructor
    · by_cases hc : s.viewers.card = 0 ∧ s.controllers.card = 0 ∧
          now - s.lastActivity > maxInactivity
      · rw [if_pos hc]
        simp only [true_iff]
        exact ⟨Finset.card_eq_zero.1 hc.1, Finset.card_eq_zero.1 hc.2.1, hc.2.2⟩
      · rw [if_neg hc]
        simp only [reduceCtorEq, false_iff]
        intro ⟨h1, h2, h3⟩
        exact hc ⟨by simp [h1], by simp [h2], h3⟩
    · intro hne
      have hc : ¬(s.viewers.card = 0 ∧ s.controllers.card = 0 ∧
          now - s.lastActivity > maxInactivity) := by
        intro ⟨h1, h2, _⟩
        rcases hne with h | h
        · exact h (Finset.card_eq_zero.1 h1)
        · exact h (Finset.card_eq_zero.1 h2)
      rw [if_neg hc]
  · intro h
    unfold cleanupInactiveSessions
    rw [h]

/-- Witness for C7: an empty 31-minute-idle session is evicted, and a
one-viewer session of the same age is kept. -/
theorem cleanup_evicts_exactly_idle_empty_witness :
    cleanupInactiveSessions 1860000 mgr9999 sid9999 = none ∧
    (∀ s, (fun k => if k = sid9999 then
        some { newSession sid9999 0 with viewers := {3} } else none) sid9999 =
        some s →
      cleanupInactiveSessions 1860000 (fun k => if k = sid9999 then
        some { newSession sid9999 0 with viewers := {3} } else none) sid9999 =
        some s) := by
  constructor
  · exact ((cleanup_evicts_exactly_idle_empty 1860000 mgr9999 sid9999).1
      (newSession sid9999 0) (by decide)).1.mpr (by decide)
  · intro s hs
    have h2 := ((cleanup_evicts_exactly_idle_empty 1860000
      (fun k => if k = sid9999 then
        some { newSession sid9999 0 with viewers := {3} } else none) sid9999).1
      s hs).2
    apply h2
    left
    have : s = { newSession sid9999 0 with viewers := {3} } := by
      simpa using hs.symm
    rw [this]
    decide

/-- C5: SELECT in radar mode mutates nothing and relays a `SELECT_AIRCRAFT`
carrying the message's direction to exactly the session's open viewer sockets
(the controllers set is not targeted); in any non-radar mode it emits
nothing. -/
theorem select_is_stateless_viewer_relay (isOpen : Nat → Bool) (s : Session)
    (dir : String) :
    (s.currentView.mode = "radar" →
      handleSelectChange isOpen s dir =
        (s, sendToSet isOpen s.viewers (OutMessage.selectAircraft s.id dir))) ∧
    (s.currentView.mode ≠ "radar" → handleSelectChange isOpen s dir = (s, 0)) ∧
    (∀ w p, (w, p) ∈ (handleSelectChange isOpen s dir).2 → w ∈ s.viewers) := by
  refine ⟨fun h => ?_, fun h => ?_, fun w p hp => ?_⟩
  · unfold handleSelectChange
    rw [if_pos (by simp [h])]
  · unfold handleSelectChange
    rw [if_neg (by simp [h])]
  · unfold handleSelectChange at hp
    by_cases h : s.currentView.mode == "radar"
    · rw [if_pos h] at hp
      exact (mem_sendToSet.1 hp).1
    · rw [if_neg h] at hp
      simp at hp

/-- Witness for C5: a radar session with viewers `{2, 3}` and controller `1`
relays the direction to exactly the two viewers, and the same session parked
on a zone emits nothing. -/
theorem select_is_stateless_viewer_relay_witness :
    handleSelectChange allOpen
      { newSession sid9999 0 with viewers := {2, 3}, controllers := {1} }
      backwardStr =
      ({ newSession sid9999 0 with viewers := {2, 3}, controllers := {1} },
        sendToSet allOpen ({2, 3} : Finset Nat)
          (OutMessage.selectAircraft sid9999 backwardStr)) ∧
    handleSelectChange allOpen
      { newSession sid9999 0 with currentView :=
        { mode := zoneModeStr 1, range := 1, zonesEnabled := false,
          selectedAircraft := none } } backwardStr =
      ({ newSession sid9999 0 with currentView :=
        { mode := zoneModeStr 1, range := 1, zonesEnabled := false,
          selectedAircraft := none } }, 0) := by
  constructor
  · exact (select_is_stateless_viewer_relay allOpen
      { newSession sid9999 0 with viewers := {2, 3}, controllers := {1} }
      backwardStr).1 rfl
  · exact (select_is_stateless_viewer_relay allOpen
      { newSession sid9999 0 with currentView :=
        { mode := zoneModeStr 1, range := 1, zonesEnabled := false,
          selectedAircraft := none } } backwardStr).2.1 (by decide)

/-- Scenario (claim C8): first `RANGE backward` from the fresh radar session. -/
def c8Step1 : Session :=
  (handleRangeChange allOpen (newSession sid9999 0) backwardStr).1

/-- Scenario: second `RANGE backward`. -/
def c8Step2 : Session := (handleRangeChange allOpen c8Step1 backwardStr).1

/-- Scenario: third `RANGE backward`. -/
def c8Step3 : Session := (handleRangeChange allOpen c8Step2 backwardStr).1

/-- Scenario: fourth `RANGE backward`. -/
def c8Step4 : Session := (handleRangeChange allOpen c8Step3 backwardStr).1

/-- C8: when the current range is an element of the active domain, RANGE
backward from the domain's first element wraps to its last, RANGE forward
from the last wraps to the first, and from a fresh radar session (range 10)
four RANGE backward steps produce 5, 100, 50, 25. -/
theorem range_wraps_at_domain_ends :
    (∀ (isOpen : Nat → Bool) (s : Session),
      (s.currentView.mode = "radar" →
        (s.currentView.range = 5 →
          (handleRangeChange isOpen s backwardStr).1.currentView.range = 100) ∧
        (s.currentView.range = 100 →
          (handleRangeChange isOpen s forwardStr).1.currentView.range = 5)) ∧
      (s.currentView.mode ≠ "radar" →
        (s.currentView.range = 1 →
          (handleRangeChange isOpen s backwardStr).1.currentView.range = 24) ∧
        (s.currentView.range = 24 →
          (handleRangeChange isOpen s forwardStr).1.currentView.range = 1))) ∧
    c8Step1.currentView.range = 5 ∧ c8Step2.currentView.range = 100 ∧
      c8Step3.currentView.range = 50 ∧ c8Step4.currentView.range = 25 := by
  refine ⟨fun isOpen s => ⟨fun hm => ⟨fun hr => ?_, fun hr => ?_⟩,
    fun hm => ⟨fun hr => ?_, fun hr => ?_⟩⟩, by decide, by decide, by decide,
    by decide⟩
  all_goals
    simp only [handleRangeChange, hm, hr, jsIndexOfNat, stepIndex, jsGetNat,
      radarRanges, zoneRanges, backwardStr, forwardStr]
  all_goals
    first
    | decide
    | simp [hm]

/-- Witness for C8: in a fresh radar session moved to range 100, RANGE forward
wraps to 5; in a zone session at range 1, RANGE backward wraps to 24. -/
theorem range_wraps_at_domain_ends_witness :
    (handleRangeChange allOpen
      { newSession sid9999 0 with currentView :=
        { mode := radarStr, range := 100, zonesEnabled := false,
          selectedAircraft := none } } forwardStr).1.currentView.range = 5 ∧
    (handleRangeChange allOpen
      { newSession sid9999 0 with currentView :=
        { mode := zoneModeStr 2, range := 1, zonesEnabled := false,
          selectedAircraft := none } } backwardStr).1.currentView.range = 24 := by
  constructor
  · exact ((range_wraps_at_domain_ends.1 allOpen
      { newSession sid9999 0 with currentView :=
        { mode := radarStr, range := 100, zonesEnabled := false,
          selectedAircraft := none } }).1 (by decide)).2 rfl
  · exact ((range_wraps_at_domain_ends.1 allOpen
      { newSession sid9999 0 with currentView :=
        { mode := zoneModeStr 2, range := 1, zonesEnabled := false,
          selectedAircraft := none } }).2 (by decide)).1 rfl

/-- C1: a MODE transition that crosses from radar into a zone resets range to
the zone default 1, one that crosses from a zone back to radar resets range to
the radar default 10, and a zone-to-zone transition leaves range unchanged;
the worked scenario on session `"9999"` with zone directory `[1, 2]` steps
through `(zone_1, 1)`, `(zone_2, 1)`, `(radar, 10)` and back to `zone_2`. -/
theorem mode_crossing_resnaps_range :
    (∀ (areas : List Nat) (isOpen : Nat → Bool) (s : Session) (dir : String),
      (s.currentView.mode = "radar" →
        (handleModeChange areas isOpen s dir).1.currentView.mode ≠ "radar" →
        (handleModeChange areas isOpen s dir).1.currentView.range = 1) ∧
      (s.currentView.mode ≠ "radar" →
        (handleModeChange areas isOpen s dir).1.currentView.mode = "radar" →
        (handleModeChange areas isOpen s dir).1.currentView.range = 10) ∧
      (s.currentView.mode ≠ "radar" →
        (handleModeChange areas isOpen s dir).1.currentView.mode ≠ "radar" →
        (handleModeChange areas isOpen s dir).1.currentView.range =
          s.currentView.range)) ∧
    viewMR (c1Table2 sid9999) = some (zoneModeStr 1, 1) ∧
    viewMR (c1Table3 sid9999) = some (zoneModeStr 2, 1) ∧
    viewMR (c1Table4 sid9999) = some (radarStr, 10) ∧
    (c1Table5 sid9999).map (fun s => s.currentView.mode) = some (zoneModeStr 2) := by
  refine ⟨fun areas isOpen s dir => ?_, by decide, by decide, by decide, by decide⟩
  have hmode : (handleModeChange areas isOpen s dir).1.currentView.mode =
      jsGetStr (modesList areas) (stepIndex dir
        (jsIndexOfStr (modesList areas) s.currentView.mode)
        (modesList areas).length) := rfl
  have hrange : (handleModeChange areas isOpen s dir).1.currentView.range =
      (if (s.currentView.mode == "radar") &&
          !(jsGetStr (modesList areas) (stepIndex dir
            (jsIndexOfStr (modesList areas) s.currentView.mode)
            (modesList areas).length) == "radar") then 1
       else if !(s.currentView.mode == "radar") &&
          (jsGetStr (modesList areas) (stepIndex dir
            (jsIndexOfStr (modesList areas) s.currentView.mode)
            (modesList areas).length) == "radar") then 10
       else s.currentView.range) := rfl
  refine ⟨fun h1 h2 => ?_, fun h1 h2 => ?_, fun h1 h2 => ?_⟩ <;>
    rw [hmode] at h2 <;> rw [hrange]
  · simp only [h1] at h2 ⊢
    simp [h2]
  · simp [h1, h2]
  · simp [h1, h2]

/-- Witness for C1: with zone directory `[1]`, MODE forward out of the fresh
radar session lands on a zone and snaps range to 1. -/
theorem mode_crossing_resnaps_range_witness :
    (handleModeChange [1] allOpen (newSession sid9999 0)
      forwardStr).1.currentView.range = 1 :=
  (mode_crossing_resnaps_range.1 [1] allOpen (newSession sid9999 0)
    forwardStr).1 rfl (by decide)

theorem jsGetStr_natCast (l : List String) (k : Nat) (hk : k < l.length) :
    jsGetStr l ((k : Nat) : Int) = l.get ⟨k, hk⟩ := by
  unfold jsGetStr
  rw [if_pos (Int.natCast_nonneg k), Int.toNat_natCast,
    List.getD_eq_getElem?_getD, List.getElem?_eq_getElem hk]
  simp [List.get_eq_getElem]

theorem stepIndex_forward (i : Int) (len : Nat) :
    stepIndex forwardStr i len = (i + 1) % (len : Int) := rfl

theorem stepIndex_backward (i : Int) (len : Nat) :
    stepIndex backwardStr i len = (if i - 1 < 0 then (len : Int) - 1 else i - 1) := rfl

theorem modeCycle_roundtrip_aux (l : List String) (hnd : l.Nodup) (m : String)
    (hm : m ∈ l) :
    jsGetStr l (stepIndex backwardStr
      (jsIndexOfStr l (jsGetStr l
        (stepIndex forwardStr (jsIndexOfStr l m) l.length)))
      l.length) = m := by
  have hn : 0 < l.length := List.length_pos_of_mem hm
  have hi : List.indexOf m l < l.length := List.indexOf_lt_length.2 hm
  have h1 : jsIndexOfStr l m = ((List.indexOf m l : Nat) : Int) := if_pos hm
  rw [h1, stepIndex_forward]
  have h2 : ((List.indexOf m l : Nat) : Int) + 1 =
      (((List.indexOf m l + 1 : Nat)) : Int) := by omega
  rw [h2, ← Int.natCast_mod]
  set j := (List.indexOf m l + 1) % l.length with hj
  have hjlt : j < l.length := Nat.mod_lt _ hn
  rw [jsGetStr_natCast l j hjlt]
  have h3 : jsIndexOfStr l (l.get ⟨j, hjlt⟩) = ((j : Nat) : Int) := by
    rw [jsIndexOfStr, if_pos (List.get_mem l j hjlt)]
    norm_cast
    have := List.indexOf_getElem hnd j hjlt
    simpa [List.get_eq_getElem] using this
  rw [h3, stepIndex_backward]
  by_cases hcase : List.indexOf m l + 1 = l.length
  · have hj0 : j = 0 := by rw [hj, hcase]; exact Nat.mod_self _
    rw [hj0]
    have hneg : ((0 : Nat) : Int) - 1 < 0 := by norm_num
    rw [if_pos hneg]
    have hlen : (l.length : Int) - 1 = (((l.length - 1 : Nat)) : Int) := by omega
    rw [hlen, jsGetStr_natCast l (l.length - 1) (by omega)]
    have hidx : l.length - 1 = List.indexOf m l := by omega
    simp only [List.get_eq_getElem]
    simp only [hidx]
    exact List.getElem_indexOf hi
  · have hlt : List.indexOf m l + 1 < l.length :=
      Nat.lt_of_le_of_ne (Nat.succ_le_of_lt hi) hcase
    have hjeq : j = List.indexOf m l + 1 := by rw [hj]; exact Nat.mod_eq_of_lt hlt
    have hpos : ¬ (((j : Nat) : Int) - 1 < 0) := by omega
    rw [if_neg hpos]
    have hsub : ((j : Nat) : Int) - 1 = (((j - 1 : Nat)) : Int) := by omega
    rw [hsub, jsGetStr_natCast l (j - 1) (by omega)]
    have hidx : j - 1 = List.indexOf m l := by omega
    simp only [List.get_eq_getElem]
    simp only [hidx]
    exact List.getElem_indexOf hi

/-- C2 (amended): when the session's current mode is an element of the mode
cycle built from the zone directory and the cycle has no duplicate entries,
MODE forward followed by MODE backward (same directory) restores the original
mode; range is not required to round-trip. -/
theorem mode_forward_backward_restores_mode (areas : List Nat)
    (isOpen : Nat → Bool) (s : Session)
    (hnd : (modesList areas).Nodup)
    (hm : s.currentView.mode ∈ modesList areas) :
    (handleModeChange areas isOpen
      (handleModeChange areas isOpen s forwardStr).1
      backwardStr).1.currentView.mode = s.currentView.mode := by
  have hmid : (handleModeChange areas isOpen s forwardStr).1.currentView.mode =
      jsGetStr (modesList areas) (stepIndex forwardStr
        (jsIndexOfStr (modesList areas) s.currentView.mode)
        (modesList areas).length) := rfl
  have houter : (handleModeChange areas isOpen
      (handleModeChange areas isOpen s forwardStr).1
      backwardStr).1.currentView.mode =
      jsGetStr (modesList areas) (stepIndex backwardStr
        (jsIndexOfStr (modesList areas)
          (handleModeChange areas isOpen s forwardStr).1.currentView.mode)
        (modesList areas).length) := rfl
  rw [houter, hmid]
  exact modeCycle_roundtrip_aux (modesList areas) hnd s.currentView.mode hm

/-- Counterexample for C2 as stated: a session whose mode is the stale zone
reference `zone_2` while the directory holds only zone 1 comes back from
MODE forward, MODE backward at `zone_1`, not at `zone_2`. -/
theorem mode_roundtrip_fails_on_stale_mode :
    (handleModeChange [1] allOpen
      (handleModeChange [1] allOpen
        { newSession sid9999 0 with currentView :=
          { mode := zoneModeStr 2, range := 1, zonesEnabled := false,
            selectedAircraft := none } } forwardStr).1
      backwardStr).1.currentView.mode ≠ zoneModeStr 2 := by decide

/-- Witness for C2 (amended): with directory `[1, 2]`, the fresh radar session
round-trips back to mode radar. -/
theorem mode_forward_backward_restores_mode_witness :
    (handleModeChange [1, 2] allOpen
      (handleModeChange [1, 2] allOpen (newSession sid9999 0) forwardStr).1
      backwardStr).1.currentView.mode = (newSession sid9999 0).currentView.mode :=
  mode_forward_backward_restores_mode [1, 2] allOpen (newSession sid9999 0)
    (by decide) (by decide)

/-- C3 (amended): when a RANGE message finds the session's current range
outside the active domain, a falsy (zero/absent) range is first replaced by
the domain's default, so the step proceeds from the default position (forward
yields the entry after the default, backward the entry before it); a nonzero
stale range however is looked up to JS index `-1`, so forward yields the
domain's first entry and backward its last. -/
theorem range_stale_fallback (isOpen : Nat → Bool) (s : Session)
    (hstale : s.currentView.range ∉
      (if s.currentView.mode = "radar" then radarRanges else zoneRanges)) :
    (s.currentView.range = 0 →
      (handleRangeChange isOpen s forwardStr).1.currentView.range =
        (if s.currentView.mode = "radar" then 15 else 4) ∧
      (handleRangeChange isOpen s backwardStr).1.currentView.range =
        (if s.currentView.mode = "radar" then 5 else 24)) ∧
    (s.currentView.range ≠ 0 →
      (handleRangeChange isOpen s forwardStr).1.currentView.range =
        (if s.currentView.mode = "radar" then 5 else 1) ∧
      (handleRangeChange isOpen s backwardStr).1.currentView.range =
        (if s.currentView.mode = "radar" then 100 else 24)) := by
  by_cases hmode : s.currentView.mode = "radar" <;>
    simp [hmode, radarRanges, zoneRanges] at hstale <;>
    refine ⟨fun hr => ⟨?_, ?_⟩, fun hr => ⟨?_, ?_⟩⟩ <;>
    simp [handleRangeChange, hmode, hr, jsIndexOfNat, hstale, stepIndex,
      jsGetNat, forwardStr, backwardStr, radarRanges, zoneRanges]

/-- Counterexample for C3 as stated: in radar mode with stale range 7 the
claim predicts a forward step as if from the default position of 10, which
would land on 15, but the handler lands on the domain's first entry 5. -/
theorem range_stale_not_default_position :
    (handleRangeChange allOpen
      { newSession sid9999 0 with currentView :=
        { mode := radarStr, range := 7, zonesEnabled := false,
          selectedAircraft := none } } forwardStr).1.currentView.range = 5 ∧
    (handleRangeChange allOpen
      { newSession sid9999 0 with currentView :=
        { mode := radarStr, range := 7, zonesEnabled := false,
          selectedAircraft := none } } forwardStr).1.currentView.range ≠ 15 := by
  decide

/-- Witness for C3 (amended): the stale radar range 7 steps forward to 5, and
a zeroed radar range steps forward to 15. -/
theorem range_stale_fallback_witness :
    (handleRangeChange allOpen
      { newSession sid9999 0 with currentView :=
        { mode := radarStr, range := 7, zonesEnabled := false,
          selectedAircraft := none } } forwardStr).1.currentView.range = 5 ∧
    (handleRangeChange allOpen
      { newSession sid9999 0 with currentView :=
        { mode := radarStr, range := 0, zonesEnabled := false,
          selectedAircraft := none } } forwardStr).1.currentView.range = 15 := by
  constructor
  · have h := ((range_stale_fallback allOpen
      { newSession sid9999 0 with currentView :=
        { mode := radarStr, range := 7, zonesEnabled := false,
          selectedAircraft := none } } (by decide)).2 (by decide)).1
    simpa using h
  · have h := ((range_stale_fallback allOpen
      { newSession sid9999 0 with currentView :=
        { mode := radarStr, range := 0, zonesEnabled := false,
          selectedAircraft := none } } (by decide)).1 rfl).1
    simpa using h

theorem registerViewer_reported_sync (isOpen : Nat → Bool) (s : Session)
    (ws : Nat) (rm : String) (rr : Nat) (hmz : rm ≠ "") (hrz : rr ≠ 0) :
    (registerViewer isOpen s ws
        (some { mode := some rm, range := some rr })).1.viewers =
      insert ws s.viewers ∧
    (registerViewer isOpen s ws
        (some { mode := some rm, range := some rr })).1.controllers =
      s.controllers ∧
    (registerViewer isOpen s ws
        (some { mode := some rm, range := some rr })).1.currentView.mode = rm ∧
    (registerViewer isOpen s ws
        (some { mode := some rm, range := some rr })).1.currentView.range = rr ∧
    (rm ≠ s.currentView.mode ∨ rr ≠ s.currentView.range →
      (registerViewer isOpen s ws
        (some { mode := some rm, range := some rr })).2 =
        broadcastToControllers isOpen
          (registerViewer isOpen s ws
            (some { mode := some rm, range := some rr })).1 +
        sendStateToClient isOpen ws
          (registerViewer isOpen s ws
            (some { mode := some rm, range := some rr })).1) ∧
    (rm = s.currentView.mode ∧ rr = s.currentView.range →
      (registerViewer isOpen s ws
          (some { mode := some rm, range := some rr })).1.currentView =
        s.currentView ∧
      (registerViewer isOpen s ws
          (some { mode := some rm, range := some rr })).2 =
        sendStateToClient isOpen ws
          (registerViewer isOpen s ws
            (some { mode := some rm, range := some rr })).1) := by
  unfold registerViewer applyReportedMode applyReportedRange
  by_cases h1 : rm = s.currentView.mode <;> by_cases h2 : rr = s.currentView.range <;>
    simp [h1, h2, hmz, hrz]

/-- Counterexample for C4 as stated: a viewer reporting range 0 against a
session at range 10 disagrees with the session's view, yet the session is not
overwritten and no controller broadcast happens — the only traffic is the
initial push to the registering viewer, because the JS truthiness guard
`currentView.range && ...` drops a zero report. -/
theorem registerViewer_falsy_report_not_synced :
    (registerViewer allOpen
      { newSession sid9999 0 with controllers := {1} } 2
      (some { mode := some radarStr, range := some 0 })).1.currentView.range =
      10 ∧ (0 : Nat) ≠ 10 ∧
    (registerViewer allOpen
      { newSession sid9999 0 with controllers := {1} } 2
      (some { mode := some radarStr, range := some 0 })).2 =
      {(2, OutMessage.stateUpdate sid9999 radarStr 10 false)} := by
  decide

/-- Witness for C4 (amended): a viewer reporting `(zone_3, 4)` against the
fresh radar session overwrites the view and triggers the controller broadcast
plus its own push. -/
theorem registerViewer_reported_sync_witness :
    (registerViewer allOpen { newSession sid9999 0 with controllers := {1} } 2
        (some { mode := some (zoneModeStr 3), range := some 4 })).1.currentView.mode =
      zoneModeStr 3 ∧
    (registerViewer allOpen { newSession sid9999 0 with controllers := {1} } 2
        (some { mode := some (zoneModeStr 3), range := some 4 })).2 =
      broadcastToControllers allOpen
        (registerViewer allOpen
          { newSession sid9999 0 with controllers := {1} } 2
          (some { mode := some (zoneModeStr 3), range := some 4 })).1 +
      sendStateToClient allOpen 2
        (registerViewer allOpen
          { newSession sid9999 0 with controllers := {1} } 2
          (some { mode := some (zoneModeStr 3), range := some 4 })).1 := by
  have h := registerViewer_reported_sync allOpen
    { newSession sid9999 0 with controllers := {1} } 2 (zoneModeStr 3) 4
    (by decide) (by decide)
  exact ⟨h.2.2.1, h.2.2.2.2.1 (Or.inl (by decide))⟩

/-- Any direction other than the literal `forward` takes the backward branch
of the shared index step. -/
theorem stepIndex_not_forward (d : String) (hd : d ≠ "forward") (i : Int)
    (len : Nat) : stepIndex d i len = stepIndex backwardStr i len := by
  have h1 : (d == "forward") = false := by simp [hd]
  have h2 : (backwardStr == "forward") = false := by decide
  unfold stepIndex
  rw [h1, h2]

/-- `handleModeChange` treats every non-`forward` direction as backward. -/
theorem handleModeChange_not_forward (areas : List Nat) (isOpen : Nat → Bool)
    (s : Session) (d : String) (hd : d ≠ "forward") :
    handleModeChange areas isOpen s d = handleModeChange areas isOpen s backwardStr := by
  unfold handleModeChange
  simp only [stepIndex_not_forward d hd]

/-- `handleRangeChange` treats every non-`forward` direction as backward. -/
theorem handleRangeChange_not_forward (isOpen : Nat → Bool)
    (s : Session) (d : String) (hd : d ≠ "forward") :
    handleRangeChange isOpen s d = handleRangeChange isOpen s backwardStr := by
  unfold handleRangeChange
  simp only [stepIndex_not_forward d hd]

/-- `handleSelectChange` never changes the session it is given. -/
theorem handleSelectChange_keeps_state (isOpen : Nat → Bool) (s : Session)
    (d : String) : (handleSelectChange isOpen s d).1 = s := by
  unfold handleSelectChange
  split <;> rfl

/-- `handleControlMessage` reads the direction field only through
the defaulted `jsOrStr` value. -/
theorem handleControlMessage_direction_congr (areas : List Nat)
    (isOpen : Nat → Bool) (now : Int) (mgr : String → Option Session) (ws : Nat)
    (msg : ControlMessage) (d2 : Option String)
    (hd : jsOrStr msg.direction forwardStr = jsOrStr d2 forwardStr) :
    handleControlMessage areas isOpen now mgr ws msg =
      handleControlMessage areas isOpen now mgr ws
        { msg with direction := d2 } := by
  unfold handleControlMessage
  dsimp only
  rw [hd]

/-- C9 (amended): an absent or empty direction makes the handler behave
exactly as if the direction were `forward`; a present, non-empty direction
other than `forward` makes MODE and RANGE behave exactly as `backward`, while
SELECT leaves the session table as `backward` would but relays the original
direction string verbatim inside the emitted `SELECT_AIRCRAFT`. -/
theorem direction_defaulting (areas : List Nat) (isOpen : Nat → Bool) (now : Int)
    (mgr : String → Option Session) (ws : Nat) (msg : ControlMessage) :
    (msg.direction = none ∨ msg.direction = some emptyStr →
      handleControlMessage areas isOpen now mgr ws msg =
        handleControlMessage areas isOpen now mgr ws
          { msg with direction := some forwardStr }) ∧
    (∀ d, msg.direction = some d → d ≠ emptyStr → d ≠ forwardStr →
      (msg.type = "MODE" ∨ msg.type = "RANGE" →
        handleControlMessage areas isOpen now mgr ws msg =
          handleControlMessage areas isOpen now mgr ws
            { msg with direction := some backwardStr }) ∧
      (msg.type = "SELECT" →
        (handleControlMessage areas isOpen now mgr ws msg).1 =
          (handleControlMessage areas isOpen now mgr ws
            { msg with direction := some backwardStr }).1 ∧
        ∀ w p, (w, p) ∈ (handleControlMessage areas isOpen now mgr ws msg).2 →
          ∃ i, p = OutMessage.selectAircraft i d)) := by
  constructor
  · intro h
    apply handleControlMessage_direction_congr
    rcases h with h | h <;> rw [h] <;> simp [jsOrStr, forwardStr, emptyStr]
  · intro d hd hne hnf
    have hdir : jsOrStr msg.direction forwardStr = d := by
      rw [hd]
      simp [jsOrStr, emptyStr] at hne ⊢
      intro hc
      exact absurd hc hne
    have hdirB : jsOrStr (some backwardStr) forwardStr = backwardStr := by
      simp [jsOrStr, backwardStr]
    have hnf2 : d ≠ "forward" := hnf
    constructor
    · intro htype
      cases hmgr : mgr msg.sessionId with
      | none =>
        unfold handleControlMessage
        rw [hmgr]
      | some s0 =>
        unfold handleControlMessage
        rw [hmgr]
        dsimp only
        rw [hdir, hdirB]
        rcases htype with h | h <;> rw [h] <;>
          simp [handleModeChange_not_forward areas isOpen _ d hnf2,
            handleRangeChange_not_forward isOpen _ d hnf2]
    · intro htype
      constructor
      · cases hmgr : mgr msg.sessionId with
        | none =>
          unfold handleControlMessage
          rw [hmgr]
        | some s0 =>
          unfold handleControlMessage
          rw [hmgr]
          dsimp only
          rw [htype]
          simp [handleSelectChange_keeps_state]
      · intro w p hp
        cases hmgr : mgr msg.sessionId with
        | none =>
          unfold handleControlMessage at hp
          rw [hmgr] at hp
          simp at hp
        | some s0 =>
          unfold handleControlMessage at hp
          rw [hmgr] at hp
          dsimp only at hp
          rw [hdir, htype] at hp
          unfold handleSelectChange at hp
          by_cases hr : ({ s0 with lastActivity := now } :
              Session).currentView.mode == "radar"
          · rw [if_pos hr] at hp
            simp at hp
            exact ⟨s0.id, (mem_sendToSet.1 (by simpa using hp)).2.2⟩
          · rw [if_neg hr] at hp
            simp at hp

/-- Counterexample for C9 as stated: the empty string is a direction other
than `forward`, yet a RANGE message carrying it steps the fresh radar session
forward to 15, where a `backward` direction steps it to 5. -/
theorem empty_direction_behaves_as_forward :
    ((handleControlMessage [] allOpen 0 mgr9999 7 msgRangeEmpty).1 sid9999).map
      (fun s => s.currentView.range) = some 15 ∧
    ((handleControlMessage [] allOpen 0 mgr9999 7 msgRangeBwd).1 sid9999).map
      (fun s => s.currentView.range) = some 5 ∧
    ((handleControlMessage [] allOpen 0 mgr9999 7 msgRangeEmpty).1 sid9999).map
      (fun s => s.currentView.range) ≠
      ((handleControlMessage [] allOpen 0 mgr9999 7 msgRangeBwd).1 sid9999).map
        (fun s => s.currentView.range) := by
  decide

/-- Witness for C9 (amended): a registration message with no direction equals
its `forward` variant, and a RANGE message with direction `backward` equals
its `backward` variant. -/
theorem direction_defaulting_witness :
    (handleControlMessage [] allOpen 0 mgr9999 7 msgRegController =
      handleControlMessage [] allOpen 0 mgr9999 7
        { msgRegController with direction := some forwardStr }) ∧
    (handleControlMessage [] allOpen 0 mgr9999 7 msgRangeBwd =
      handleControlMessage [] allOpen 0 mgr9999 7
        { msgRangeBwd with direction := some backwardStr }) :=
  ⟨(direction_defaulting [] allOpen 0 mgr9999 7 msgRegController).1 (Or.inl rfl),
    ((direction_defaulting [] allOpen 0 mgr9999 7 msgRangeBwd).2 backwardStr rfl
      (by decide) (by decide)).1 (Or.inr rfl)⟩

/-- C10: with fewer than 9000 four-digit ids occupied, some four-digit id is
free, so a sample stream that attains every residue mod 9000 (as an unending
uniform random stream does with probability 1) makes the rejection loop halt,
and the returned id is a four-digit value in 1000..9999 that is not a key of
the table. -/
theorem generateSessionId_terminates_fresh (keys : Finset Nat)
    (stream : Nat → Nat)
    (hcard : (keys.filter (fun k => 1000 ≤ k ∧ k ≤ 9999)).card < 9000)
    (hfair : ∀ r, r < 9000 → ∃ n, stream n % 9000 = r) :
    ∃ h : ∃ n, sessionIdSample stream n ∉ keys,
      1000 ≤ generateSessionId keys stream h ∧
      generateSessionId keys stream h ≤ 9999 ∧
      generateSessionId keys stream h ∉ keys := by
  have hfree : ∃ v, 1000 ≤ v ∧ v ≤ 9999 ∧ v ∉ keys := by
    by_contra hc
    push_neg at hc
    have hsub : Finset.Icc 1000 9999 ⊆
        keys.filter (fun k => 1000 ≤ k ∧ k ≤ 9999) := by
      intro v hv
      have hm := Finset.mem_Icc.1 hv
      exact Finset.mem_filter.2 ⟨hc v hm.1 hm.2, hm.1, hm.2⟩
    have hle := Finset.card_le_card hsub
    rw [Nat.card_Icc] at hle
    omega
  obtain ⟨v, hv1, hv2, hv3⟩ := hfree
  obtain ⟨n, hn⟩ := hfair (v - 1000) (by omega)
  have hsample : sessionIdSample stream n = v := by
    unfold sessionIdSample
    omega
  have h : ∃ n, sessionIdSample stream n ∉ keys := ⟨n, by rw [hsample]; exact hv3⟩
  refine ⟨h, ?_, ?_, Nat.find_spec h⟩
  · unfold generateSessionId sessionIdSample
    omega
  · unfold generateSessionId sessionIdSample
    have hlt : stream (Nat.find h) % 9000 < 9000 := Nat.mod_lt _ (by norm_num)
    omega

/-- The identity stream's first sample is free in the empty table. -/
theorem idStream_has_free_sample :
    ∃ n, sessionIdSample idStream n ∉ (∅ : Finset Nat) :=
  ⟨0, by decide⟩

/-- Witness for C10: against the empty table and the identity stream, the
generator halts on a four-digit id that is not a key. -/
theorem generateSessionId_terminates_fresh_witness :
    1000 ≤ generateSessionId ∅ idStream idStream_has_free_sample ∧
    generateSessionId ∅ idStream idStream_has_free_sample ≤ 9999 ∧
    generateSessionId ∅ idStream idStream_has_free_sample ∉ (∅ : Finset Nat) := by
  obtain ⟨h, h1, h2, h3⟩ := generateSessionId_terminates_fresh ∅ idStream
    (by decide) (fun r hr => ⟨r, Nat.mod_eq_of_lt hr⟩)
  exact ⟨h1, h2, h3⟩
